import Mathlib

/-!
A shallow embedding of the reconciliation logic of
`plugins/modules/digital_ocean_droplet.py`.  The second module of the
repository, `plugins/modules/digital_ocean_load_balancer.py`, contains a
`DODroplet` class whose method bodies are line-for-line identical to the
droplet module (only the documentation strings differ), so the embedding
below covers both files; theorems about the load-balancer module are
stated over the same definitions.

Modelling conventions:
* JSON values are `JVal`; Python dictionaries are association lists.
* The HTTP layer is an oracle `env : Nat -> Response` giving the response
  to the n-th HTTP call; every call is recorded in a request trace.
* `module.exit_json` / `module.fail_json` raise `SystemExit`; they are
  modelled as terminal outcomes of the monad `M`.  An uncaught Python
  exception (`KeyError`, `AttributeError`, `TypeError`) is the terminal
  outcome `Outcome.exception`.
* `time.monotonic` is a clock in the state, advanced only by `time.sleep`.
* `while` loops are fuel-indexed; running out of fuel yields the terminal
  outcome `Outcome.fuelOut`, so divergence of a loop is expressed as
  "for every fuel the run ends in `fuelOut`".
-/

/-- A JSON value, as produced by `response.json` in the source. -/
inductive JVal where
  | jnull
  | jbool (b : Bool)
  | jnum (n : Int)
  | jstr (s : String)
  | jarr (xs : List JVal)
  | jobj (fields : List (String × JVal))

/-- First binding of a key in an association list (Python dict lookup). -/
def lookupStr : List (String × JVal) → String → Option JVal
  | [], _ => none
  | (k, v) :: rest, key => if k == key then some v else lookupStr rest key

/-- Python `d.get(key, None)` on a dictionary; `none` on a non-dictionary. -/
def JVal.get : JVal → String → Option JVal
  | .jobj fs, key => lookupStr fs key
  | _, _ => none

/-- Python `key in d`. -/
def JVal.hasKey : JVal → String → Bool
  | .jobj fs, key => fs.any (fun p => p.1 == key)
  | _, _ => false

/-- Replace the binding of a key, or append it (Python `d[key] = v`). -/
def setFields : List (String × JVal) → String → JVal → List (String × JVal)
  | [], key, v => [(key, v)]
  | (k, w) :: rest, key, v =>
      if k == key then (key, v) :: rest else (k, w) :: setFields rest key v

/-- Python `d[key] = v` on a dictionary (identity on non-dictionaries; in the
source this operation is only reached on values already known to be
dictionaries). -/
def JVal.set : JVal → String → JVal → JVal
  | .jobj fs, key, v => .jobj (setFields fs key v)
  | j, _, _ => j

/-- Python truthiness of a JSON value. -/
def JVal.truthy : JVal → Bool
  | .jnull => false
  | .jbool b => b
  | .jnum n => n != 0
  | .jstr s => s != ""
  | .jarr xs => !xs.isEmpty
  | .jobj fs => !fs.isEmpty

/-- Truthiness of an optional value (Python `None` is falsy). -/
def truthyOpt : Option JVal → Bool
  | none => false
  | some v => v.truthy

/-- Python `v == lit` for a string literal `lit`. -/
def jeqStr : JVal → String → Bool
  | .jstr s, lit => s == lit
  | _, _ => false

/-- Python `v == lit` where `v` may be `None`. -/
def optJeqStr : Option JVal → String → Bool
  | some v, lit => jeqStr v lit
  | none, _ => false

/-- Python `==` between two primitive JSON values (the source only compares
strings and `None` this way). -/
def pyEqPrim : JVal → JVal → Bool
  | .jnull, .jnull => true
  | .jbool a, .jbool b => a == b
  | .jnum a, .jnum b => a == b
  | .jstr a, .jstr b => a == b
  | _, _ => false

/-- Embed an optional string parameter as the JSON value Python would hold. -/
def jOfOptStr : Option String → JVal
  | none => .jnull
  | some s => .jstr s

/-- Embed an optional integer parameter. -/
def jOfOptInt : Option Int → JVal
  | none => .jnull
  | some n => .jnum n

/-- Collapse an optional JSON value (Python variables holding `x or None`). -/
def jOfOpt : Option JVal → JVal
  | none => .jnull
  | some v => v

/-- Python `str(v)`, to the extent the formatted failure and success
messages of the source need it. -/
def JVal.pyStr : JVal → String
  | .jnull => "None"
  | .jbool true => "True"
  | .jbool false => "False"
  | .jnum n => toString n
  | .jstr s => s
  | .jarr _ => "[list]"
  | .jobj _ => "[dict]"

/-- `str` of a possibly-`None` value. -/
def optPyStr : Option JVal → String
  | none => "None"
  | some v => v.pyStr

/-- The typed argument record of the module (`module.params` after
`AnsibleModule` validation).  The creation-only attributes that are merely
forwarded inside the creation body (`ssh_keys`, `tags`, `volumes`,
`user_data`, flags, ...) never influence control flow; they travel opaquely
inside `Body.createFromParams`. -/
structure Params where
  id : Option Int
  name : Option String
  size : Option String
  image : Option String
  region : Option String
  resize_disk : Bool
deriving DecidableEq

/-- HTTP method of a request issued through `DigitalOceanHelper`. -/
inductive Method where
  | GET
  | POST
  | DELETE
deriving DecidableEq

/-- The URL paths the two modules build by string formatting. -/
inductive UrlPath where
  | droplets
  | dropletsPage (page : Nat)
  | droplet (id : JVal)
  | dropletActions (id : JVal)
  | dropletAction (id : JVal) (actionId : JVal)

/-- The request bodies the two modules build. -/
inductive Body where
  | empty
  | createFromParams (p : Params)
  | action (fields : List (String × JVal))

/-- One HTTP request, as recorded in the trace. -/
structure Request where
  method : Method
  path : UrlPath
  body : Body

/-- One HTTP response, as served by the environment oracle. -/
structure Response where
  status_code : Nat
  json : JVal

/-- The state of one module invocation: the `DODroplet` instance attributes
set in `__init__` (`wait`, `wait_timeout`, `unique_name`, the remaining
`module.params`, and the cached `id`/`name`/`size`/`status`), the
check-mode flag, the monotonic clock, and the HTTP call count and trace. -/
structure St where
  params : Params
  check_mode : Bool
  wait : Bool
  wait_timeout : Int
  unique_name : Bool
  id : Option JVal
  name : Option JVal
  size : Option JVal
  status : Option JVal
  now : Int
  calls : Nat
  trace : List Request

/-- Terminal outcome of a module invocation. -/
inductive Outcome where
  | exited (changed : Bool) (msg : Option String) (data : Option JVal)
  | failed (changed : Option Bool) (msg : String)
  | exception (err : String)
  | fuelOut

/-- Result of running a monadic step from a state: either a value and the
next state, or a terminal outcome (exit, failure, exception, fuel). -/
inductive StepR (α : Type) where
  | ok (a : α) (s : St)
  | done (o : Outcome) (s : St)

/-- Final state carried by a step result. -/
def StepR.state : StepR α → St
  | .ok _ s => s
  | .done _ s => s

/-- The execution monad: state passing with terminal outcomes. -/
def M (α : Type) : Type := St → StepR α

def M.pure (a : α) : M α := fun s => .ok a s

def M.bind (x : M α) (f : α → M β) : M β := fun s =>
  match x s with
  | .ok a s1 => f a s1
  | .done o s1 => .done o s1

instance : Monad M where
  pure := M.pure
  bind := M.bind

/-- Read the current state (access to `self` and `module`). -/
def getSt : M St := fun s => .ok s s

/-- Update the current state (attribute assignment on `self`). -/
def modifySt (f : St → St) : M Unit := fun s => .ok () (f s)

/-- `module.exit_json(...)`. -/
def exitJson (changed : Bool) (msg : Option String) (data : Option JVal) : M α :=
  fun s => .done (.exited changed msg data) s

/-- `module.fail_json(...)`; `changed = none` when the call passes no
`changed` keyword. -/
def failJson (changed : Option Bool) (msg : String) : M α :=
  fun s => .done (.failed changed msg) s

/-- An uncaught Python exception. -/
def raisePy (err : String) : M α := fun s => .done (.exception err) s

/-- A fuel-indexed loop ran out of fuel (stands for divergence). -/
def outOfFuel : M α := fun s => .done .fuelOut s

/-- Python `d[key]`: `KeyError` (or `TypeError` on a non-dictionary) when
the key is missing. -/
def pyIndex (v : JVal) (key : String) : M JVal :=
  match v.get key with
  | some x => M.pure x
  | none => raisePy "KeyError"

/-- Python iteration over a value expected to be a list. -/
def pyIterList : JVal → M (List JVal)
  | .jarr xs => M.pure xs
  | _ => raisePy "TypeError"

/-- `time.sleep(t)`: advance the monotonic clock. -/
def sleepM (t : Int) : M Unit := modifySt (fun s => { s with now := s.now + t })

/-- One call through `DigitalOceanHelper`: record the request, consume the
next scripted response. -/
def httpReq (env : Nat → Response) (m : Method) (p : UrlPath) (b : Body) : M Response :=
  fun s => .ok (env s.calls)
    { s with calls := s.calls + 1, trace := s.trace ++ [⟨m, p, b⟩] }

/-- `self.rest.get(path)`. -/
def restGet (env : Nat → Response) (p : UrlPath) : M Response :=
  httpReq env .GET p .empty

/-- `self.rest.post(path, data=body)`. -/
def restPost (env : Nat → Response) (p : UrlPath) (b : Body) : M Response :=
  httpReq env .POST p b

/-- `self.rest.delete(path)`. -/
def restDelete (env : Nat → Response) (p : UrlPath) : M Response :=
  httpReq env .DELETE p .empty

/-- `DODroplet.get_by_id` (droplet module lines 234-247; identical in the
load-balancer module lines 193-206). -/
def get_by_id (env : Nat → Response) (droplet_id : JVal) : M (Option JVal) :=
  if !droplet_id.truthy then M.pure none
  else do
    let response ← restGet env (.droplet droplet_id)
    let json_data := response.json
    if response.status_code == 200 then do
      (match json_data.get "droplet" with
       | some droplet =>
          modifySt (fun s =>
            { s with id := droplet.get "id", name := droplet.get "name",
                     size := droplet.get "size_slug", status := droplet.get "status" })
       | none => M.pure ())
      M.pure (some json_data)
    else M.pure none

/-- `for droplet in json_data[\x27droplets\x27]: if droplet.get(\x27name\x27, None) == droplet_name`:
first droplet of the page whose name equals the searched name.  A non-dict
element would raise `AttributeError` at `droplet.get`. -/
def findByName (nm : String) : List JVal → Except String (Option JVal)
  | [] => .ok none
  | d :: ds =>
      match d with
      | .jobj _ => if optJeqStr (d.get "name") nm then .ok (some d) else findByName nm ds
      | _ => .error "AttributeError"

/-- The pagination test of `get_by_name`:
`links in json_data and pages in json_data[links] and next in json_data[links][pages]`. -/
def hasNextLink (json_data : JVal) : Bool :=
  match json_data.get "links" with
  | none => false
  | some l =>
      match l.get "pages" with
      | none => false
      | some pgs => pgs.hasKey "next"

/-- The `while page is not None` loop of `DODroplet.get_by_name` (droplet
module lines 252-268), fuel-indexed.  On a non-200 response the body does
nothing: the page number is unchanged and the loop repeats. -/
def get_by_name_loop (env : Nat → Response) (droplet_name : String) :
    Nat → Nat → M (Option JVal)
  | _page, 0 => outOfFuel
  | page, fuel + 1 => do
      let response ← restGet env (.dropletsPage page)
      let json_data := response.json
      if response.status_code == 200 then do
        let droplets ← pyIndex json_data "droplets"
        let ds ← pyIterList droplets
        match findByName droplet_name ds with
        | .error e => raisePy e
        | .ok (some droplet) => do
            modifySt (fun s =>
              { s with id := droplet.get "id", name := droplet.get "name",
                       size := droplet.get "size_slug", status := droplet.get "status" })
            M.pure (some (.jobj [("droplet", droplet)]))
        | .ok none =>
            if hasNextLink json_data then
              get_by_name_loop env droplet_name (page + 1) fuel
            else
              M.pure none
      else get_by_name_loop env droplet_name page fuel

/-- `DODroplet.get_by_name` (droplet module lines 249-268). -/
def get_by_name (env : Nat → Response) (droplet_name : Option String) (fuel : Nat) :
    M (Option JVal) :=
  if !(jOfOptStr droplet_name).truthy then M.pure none
  else
    match droplet_name with
    | none => M.pure none
    | some nm => get_by_name_loop env nm 1 fuel

/-- `DODroplet.get_droplet` (droplet module lines 288-292). -/
def get_droplet (env : Nat → Response) (fuel : Nat) : M (Option JVal) := do
  let s ← getSt
  let json_data ← get_by_id env (jOfOptInt s.params.id)
  if !truthyOpt json_data && s.unique_name then
    get_by_name env s.params.name fuel
  else
    M.pure json_data

/-- The two address-scanning loops of `DODroplet.get_addresses`: for each
network entry, write the public or private address key into the data
dictionary (`network[type]` and `network[ip_address]` are direct indexings
and can raise `KeyError`). -/
def addrScan (pubKey privKey : String) (d : JVal) : List JVal → M JVal
  | [] => M.pure d
  | network :: rest => do
      let t ← pyIndex network "type"
      if jeqStr t "public" then do
        let ip ← pyIndex network "ip_address"
        addrScan pubKey privKey (d.set pubKey ip) rest
      else do
        let ip ← pyIndex network "ip_address"
        addrScan pubKey privKey (d.set privKey ip) rest

/-- `DODroplet.get_addresses` (droplet module lines 270-286).  The
`setattr(self, k, v)` loop copies the top-level response keys onto `self`;
none of those keys (`droplet`, `links`, `ip_address`, ...) collides with an
attribute the reconciler reads (`id`, `name`, `size`, `status`), so it has
no observable effect in the model. -/
def get_addresses (data : JVal) : M JVal := do
  let droplet ← pyIndex data "droplet"
  let networks ← pyIndex droplet "networks"
  let v4 ← (match networks.get "v4" with
            | none => M.pure []
            | some v => pyIterList v)
  let d1 ← addrScan "ip_address" "private_ipv4_address" data v4
  let v6 ← (match networks.get "v6" with
            | none => M.pure []
            | some v => pyIterList v)
  addrScan "ipv6_address" "private_ipv6_address" d1 v6

/-- The fatal message of the resize precondition (droplet module line 307). -/
def mustBeOffMsg : String :=
  "Droplet must be off prior to resizing (https://developers.digitalocean.com/documentation/v2/#resize-a-droplet)"

/-- The success message of a resize (droplet module lines 301-302). -/
def resizedMsg (name id size : Option JVal) (newSize : JVal) : String :=
  "Resized Droplet " ++ optPyStr name ++ " (" ++ optPyStr id ++ ") from "
    ++ optPyStr size ++ " to " ++ newSize.pyStr

/-- The failure message of a rejected resize (droplet module lines 304-305). -/
def resizeFailedMsg (name id : Option JVal) (code : Nat) (message : Option JVal) : String :=
  "Resizing Droplet " ++ optPyStr name ++ " (" ++ optPyStr id ++ ") failed [HTTP "
    ++ toString code ++ ": " ++ optPyStr message ++ "]"

/-- The body of the resize action request (droplet module lines 297-298). -/
def resizeBody (p : Params) : Body :=
  .action [("type", .jstr "resize"), ("disk", .jbool p.resize_disk),
           ("size", jOfOptStr p.size)]

/-- The resize action request itself. -/
def resizeReq (id : Option JVal) (p : Params) : Request :=
  ⟨.POST, .dropletActions (jOfOpt id), resizeBody p⟩

/-- `DODroplet.resize_droplet` (droplet module lines 294-307; identical in
the load-balancer module lines 253-266). -/
def resize_droplet (env : Nat → Response) : M Unit := do
  let s ← getSt
  if optJeqStr s.status "off" then do
    let response ← restPost env (.dropletActions (jOfOpt s.id)) (resizeBody s.params)
    let json_data := response.json
    if response.status_code == 201 then
      exitJson true (some (resizedMsg s.name s.id s.size (jOfOptStr s.params.size))) none
    else
      failJson none (resizeFailedMsg s.name s.id response.status_code (json_data.get "message"))
  else
    failJson none mustBeOffMsg

/-- The polling loop of `DODroplet.ensure_power_on` (droplet module lines
377-382): the body indexes `json_data[droplet][status]` directly, with no
status-code check and no presence guard. -/
def power_on_loop (env : Nat → Response) (droplet_id : JVal) (end_time : Int) :
    Nat → M JVal
  | 0 => do
      let s ← getSt
      if s.now < end_time then outOfFuel
      else failJson none "Wait for droplet powering on timeout"
  | fuel + 1 => do
      let s ← getSt
      if s.now < end_time then do
        let response ← restGet env (.droplet droplet_id)
        let json_data := response.json
        let droplet ← pyIndex json_data "droplet"
        let droplet_status ← pyIndex droplet "status"
        if jeqStr droplet_status "active" then M.pure json_data
        else do
          let s2 ← getSt
          sleepM (min 10 (end_time - s2.now))
          power_on_loop env droplet_id end_time fuel
      else failJson none "Wait for droplet powering on timeout"

/-- `DODroplet.ensure_power_on` (droplet module lines 374-383). -/
def ensure_power_on (env : Nat → Response) (droplet_id : JVal) (fuel : Nat) : M JVal := do
  let _ ← restPost env (.dropletActions droplet_id) (.action [("type", .jstr "power_on")])
  let s ← getSt
  power_on_loop env droplet_id (s.now + s.wait_timeout) fuel

/-- Phase (a) of `DODroplet.ensure_power_off` (droplet module lines
388-406): wait until the droplet reports status `active`.  When the clock
reaches the deadline the `while` condition turns false and control falls
through to the power-off request: there is no timeout failure in this
phase. -/
def power_off_wait_active (env : Nat → Response) (droplet_id : JVal) (end_time : Int) :
    Nat → M Unit
  | 0 => do
      let s ← getSt
      if s.now < end_time then outOfFuel
      else M.pure ()
  | fuel + 1 => do
      let s ← getSt
      if s.now < end_time then do
        let response ← restGet env (.droplet droplet_id)
        let json_data := response.json
        (if response.status_code ≥ 400 then do
            let m ← pyIndex json_data "message"
            failJson (some false) m.pyStr
         else M.pure ())
        match json_data.get "droplet" with
        | none => failJson (some false) "Unexpected error, please file a bug (no droplet)"
        | some droplet =>
          match droplet.get "status" with
          | none => failJson (some false) "Unexpected error, please file a bug (no status)"
          | some droplet_status =>
            if jeqStr droplet_status "active" then M.pure ()
            else do
              let s2 ← getSt
              sleepM (min 10 (end_time - s2.now))
              power_off_wait_active env droplet_id end_time fuel
      else M.pure ()

/-- Phase (c) of `DODroplet.ensure_power_off` (droplet module lines
421-442): poll the power-off action until it reports `completed`, then
fetch and return the fresh droplet document; deadline expiry here is the
fatal powering-off timeout. -/
def power_off_poll_action (env : Nat → Response) (droplet_id action_id : JVal)
    (end_time : Int) : Nat → M JVal
  | 0 => do
      let s ← getSt
      if s.now < end_time then outOfFuel
      else failJson none "Wait for droplet powering off timeout"
  | fuel + 1 => do
      let s ← getSt
      if s.now < end_time then do
        let response ← restGet env (.dropletAction droplet_id action_id)
        let json_data := response.json
        (if response.status_code ≥ 400 then do
            let m ← pyIndex json_data "message"
            failJson (some false) m.pyStr
         else M.pure ())
        let action := json_data.get "action"
        -- `action_status = action.get("status", None)` runs before the
        -- `if action is None` test: a missing action raises AttributeError.
        let action_status ← (match action with
          | none => raisePy "AttributeError"
          | some a => M.pure (a.get "status"))
        (if action.isNone || action_status.isNone then
            failJson (some false) "Unexpected error, please file a bug (no action or status)"
         else M.pure ())
        if optJeqStr action_status "completed" then do
          let response2 ← restGet env (.droplet droplet_id)
          let json2 := response2.json
          (if response2.status_code ≥ 400 then do
              let m ← pyIndex json2 "message"
              failJson (some false) m.pyStr
           else M.pure ())
          M.pure json2
        else do
          let s2 ← getSt
          sleepM (min 10 (end_time - s2.now))
          power_off_poll_action env droplet_id action_id end_time fuel
      else failJson none "Wait for droplet powering off timeout"

/-- `DODroplet.ensure_power_off` (droplet module lines 385-442). -/
def ensure_power_off (env : Nat → Response) (droplet_id : JVal) (fuel : Nat) : M JVal := do
  let s ← getSt
  power_off_wait_active env droplet_id (s.now + s.wait_timeout) fuel
  let response ← restPost env (.dropletActions droplet_id)
      (.action [("type", .jstr "power_off")])
  let json_data := response.json
  (if response.status_code ≥ 400 then do
      let m ← pyIndex json_data "message"
      failJson (some false) m.pyStr
   else M.pure ())
  let action := json_data.get "action"
  -- `action_id = action.get("id", None)` runs before the None test.
  let action_id ← (match action with
    | none => raisePy "AttributeError"
    | some a => M.pure (a.get "id"))
  (if action.isNone || action_id.isNone then
      failJson (some false) "Unexpected error, please file a bug (no power-off action or id)"
   else M.pure ())
  let s2 ← getSt
  power_off_poll_action env droplet_id (jOfOpt action_id) (s2.now + s2.wait_timeout) fuel

/-- `DODroplet.create` (droplet module lines 309-359; identical in the
load-balancer module lines 268-318).  Note the order: the located-droplet
branch, with its resize and power assertions, runs before the check-mode
test. -/
def create (env : Nat → Response) (state : String) (fuel : Nat) : M Unit := do
  let json_data ← get_droplet env fuel
  (match json_data with
   | some jd => do
      let s0 ← getSt
      (match jd.get "droplet" with
       | some droplet =>
          (match droplet.get "size_slug" with
           | some droplet_size =>
              if !pyEqPrim droplet_size (jOfOptStr s0.params.size) then
                resize_droplet env
              else M.pure ()
           | none => M.pure ())
       | none => M.pure ())
      let droplet_data ← get_addresses jd
      (match jd.get "droplet" with
       | some droplet =>
          (match droplet.get "id", droplet.get "status" with
           | some droplet_id, some droplet_status =>
              if state == "active" && !jeqStr droplet_status "active" then do
                let power_on_json_data ← ensure_power_on env droplet_id fuel
                let dd ← get_addresses power_on_json_data
                exitJson true none (some dd)
              else if state == "inactive" && !jeqStr droplet_status "off" then do
                let power_off_json_data ← ensure_power_off env droplet_id fuel
                let dd ← get_addresses power_off_json_data
                exitJson true none (some dd)
              else
                exitJson false none (some droplet_data)
           | _, _ => M.pure ())
       | none => M.pure ())
   | none => M.pure ())
  let s ← getSt
  (if s.check_mode then exitJson true none none else M.pure ())
  let response ← restPost env .droplets (.createFromParams s.params)
  let json_data2 := response.json
  (if response.status_code ≥ 400 then do
      let m ← pyIndex json_data2 "message"
      failJson (some false) m.pyStr
   else M.pure ())
  match json_data2.get "droplet" with
  | some droplet_data2 =>
      (match droplet_data2.get "id" with
       | some droplet_id =>
          if s.wait then do
            let jd3 ← (if state == "active" then ensure_power_on env droplet_id fuel
                       else M.pure json_data2)
            let jd4 ← (if state == "inactive" then ensure_power_off env droplet_id fuel
                       else M.pure jd3)
            let dd ← get_addresses jd4
            exitJson true none (some dd)
          else do
            (if state == "inactive" then do
                let _ ← restPost env (.dropletActions droplet_id)
                    (.action [("type", .jstr "power_off")])
                M.pure ()
             else M.pure ())
            exitJson true none (some droplet_data2)
       | none => failJson (some false) "Unexpected error, please file a bug")
  | none => failJson (some false) "Unexpected error, please file a bug"

/-- `DODroplet.delete` (droplet module lines 361-372; identical in the
load-balancer module lines 320-331). -/
def delete (env : Nat → Response) (fuel : Nat) : M Unit := do
  let json_data ← get_droplet env fuel
  if truthyOpt json_data then do
    let jd := jOfOpt json_data
    let s ← getSt
    (if s.check_mode then exitJson true none none else M.pure ())
    let droplet ← pyIndex jd "droplet"
    let droplet_id ← pyIndex droplet "id"
    let response ← restDelete env (.droplet droplet_id)
    (if response.status_code == 204 then exitJson true (some "Droplet deleted") none
     else M.pure ())
    failJson (some false) "Failed to delete droplet"
  else
    exitJson false (some "Droplet not found") none

/-- `core` (droplet module lines 445-451; identical in the load-balancer
module lines 404-410). -/
def core (env : Nat → Response) (state : String) (fuel : Nat) : M Unit :=
  if state == "present" || state == "active" || state == "inactive" then
    create env state fuel
  else if state == "absent" then
    delete env fuel
  else M.pure ()

/-- A fresh invocation state, as left by `DODroplet.__init__`. -/
def mkSt (p : Params) (check_mode wait unique_name : Bool) (wait_timeout : Int) : St :=
  { params := p, check_mode := check_mode, wait := wait,
    wait_timeout := wait_timeout, unique_name := unique_name,
    id := none, name := none, size := none, status := none,
    now := 0, calls := 0, trace := [] }

/-- The GET request for one droplet document. -/
def getDropletReq (id : JVal) : Request := ⟨.GET, .droplet id, .empty⟩

/-- The GET request for one listing page. -/
def pageReq (page : Nat) : Request := ⟨.GET, .dropletsPage page, .empty⟩

/-- The power-on action request. -/
def powerOnReq (id : JVal) : Request :=
  ⟨.POST, .dropletActions id, .action [("type", .jstr "power_on")]⟩

/-- The power-off action request. -/
def powerOffReq (id : JVal) : Request :=
  ⟨.POST, .dropletActions id, .action [("type", .jstr "power_off")]⟩

/-- The GET request polling one action. -/
def actionPollReq (id aid : JVal) : Request := ⟨.GET, .dropletAction id aid, .empty⟩

/-- The droplet-creation POST request. -/
def createReq (p : Params) : Request := ⟨.POST, .droplets, .createFromParams p⟩

/-- The DELETE request for one droplet. -/
def deleteReq (id : JVal) : Request := ⟨.DELETE, .droplet id, .empty⟩

/-- Reference description of the paged search result: the first match,
page by page (mirrors one `for` sweep per fetched page). -/
def searchPages (nm : String) : List (List JVal) → Option JVal
  | [] => none
  | pg :: rest =>
      match findByName nm pg with
      | .ok (some d) => some d
      | _ => searchPages nm rest

/-- Reference count of pages the search fetches before stopping. -/
def searchCount (nm : String) : List (List JVal) → Nat
  | [] => 0
  | pg :: rest =>
      match findByName nm pg with
      | .ok (some _) => 1
      | _ => 1 + searchCount nm rest

/-- The `links` object of a listing response, with or without a `next`
pagination link. -/
def pageLinksJ (hasNextPage : Bool) : JVal :=
  if hasNextPage then .jobj [("pages", .jobj [("next", .jstr "next")])]
  else .jobj [("pages", .jobj [])]

/-- A well-formed paginated listing server: call `k` serves page `k + 1`,
status 200, with a `next` link exactly when further pages exist. -/
def envOfPages (pages : List (List JVal)) : Nat → Response := fun k =>
  match pages[k]? with
  | some pg =>
      ⟨200, .jobj [("droplets", .jarr pg), ("links", pageLinksJ (decide (k + 1 < pages.length)))]⟩
  | none => ⟨404, .jobj []⟩

/-- A droplet document with the fields the reconciler reads. -/
def dropletDoc (i : Int) (nm sizeSlug statusStr : String) : JVal :=
  .jobj [("id", .jnum i), ("name", .jstr nm), ("size_slug", .jstr sizeSlug),
         ("status", .jstr statusStr), ("networks", .jobj [])]

/-- Concrete scenario for claim C1: check mode on, droplet 1 located with
size `s-1` while `s-2` is desired, status `off`; the resize action request
is accepted with 201. -/
def envC1 : Nat → Response := fun k =>
  match k with
  | 0 => ⟨200, .jobj [("droplet", dropletDoc 1 "web-1" "s-1" "off")]⟩
  | _ => ⟨201, .jobj []⟩

/-- Concrete scenario for the power path of claim C1: droplet 1 located
with the desired size but status `off` while `active` is requested. -/
def envC1b : Nat → Response := fun k =>
  match k with
  | 0 => ⟨200, .jobj [("droplet", dropletDoc 1 "web-1" "s-2" "off")]⟩
  | 1 => ⟨201, .jobj []⟩
  | _ => ⟨200, .jobj [("droplet", dropletDoc 1 "web-1" "s-2" "active")]⟩

/-- Check-mode invocation state for claim C1. -/
def stC1 : St := mkSt ⟨some 1, some "web-1", some "s-2", none, none, false⟩ true true false 120

/-- Concrete scenario for claim C2: the droplet never reaches `active`
within the 5 second deadline; afterwards the power-off action is accepted
and completes. -/
def envC2 : Nat → Response := fun k =>
  match k with
  | 0 => ⟨200, .jobj [("droplet", .jobj [("id", .jnum 1), ("status", .jstr "new")])]⟩
  | 1 => ⟨201, .jobj [("action", .jobj [("id", .jnum 9), ("status", .jstr "in-progress")])]⟩
  | 2 => ⟨200, .jobj [("action", .jobj [("id", .jnum 9), ("status", .jstr "completed")])]⟩
  | _ => ⟨200, .jobj [("droplet", .jobj [("id", .jnum 1), ("status", .jstr "off")])]⟩

/-- Invocation state for claim C2, with `wait_timeout = 5`. -/
def stC2 : St := mkSt ⟨some 1, none, some "s-1", none, none, false⟩ false true false 5

/-- Concrete scenario for claim C4, read against the load-balancer module:
state `present`, desired size class `lb-small`, located resource 7 carries
size `lb-medium` and status `off`; the (droplet-shaped) resize action is
accepted with 201. -/
def envC4 : Nat → Response := fun k =>
  match k with
  | 0 => ⟨200, .jobj [("droplet", dropletDoc 7 "lb-1" "lb-medium" "off")]⟩
  | _ => ⟨201, .jobj []⟩

/-- Invocation state for claim C4. -/
def stC4 : St := mkSt ⟨some 7, some "lb-1", some "lb-small", none, none, false⟩ false true false 120

/-- Concrete scenario for claim C5: the droplet is active, the power-off
action is accepted (201), and the first action poll answers 500 with an
error message. -/
def envC5 : Nat → Response := fun k =>
  match k with
  | 0 => ⟨200, .jobj [("droplet", .jobj [("id", .jnum 1), ("status", .jstr "active")])]⟩
  | 1 => ⟨201, .jobj [("action", .jobj [("id", .jnum 9), ("status", .jstr "in-progress")])]⟩
  | _ => ⟨500, .jobj [("message", .jstr "boom")]⟩

/-- Invocation state for claim C5. -/
def stC5 : St := mkSt ⟨some 1, none, some "s-1", none, none, false⟩ false true false 5

/-- Concrete scenario for claim C6: lookup by id answers 404, the single
listing page holds no droplet of the searched name. -/
def envC6 : Nat → Response := fun k =>
  match k with
  | 0 => ⟨404, .jobj [("id", .jstr "not_found")]⟩
  | _ => ⟨200, .jobj [("droplets", .jarr []), ("links", .jobj [("pages", .jobj [])])]⟩

/-- Invocation state for claim C6 (state absent, unique names enforced). -/
def stC6 : St := mkSt ⟨some 42, some "web-1", some "s-1", none, none, false⟩ false true true 120

/-- Concrete scenario for claim C7: the server already holds the droplet
created by the first invocation, but with `unique_name` off and no id the
second invocation performs no lookup at all; its creation request is
accepted with 202. -/
def envC7 : Nat → Response := fun _ =>
  ⟨202, .jobj [("droplet", dropletDoc 3 "web-1" "s-1vcpu-1gb" "new")]⟩

/-- Desired state of claim C7: `unique_name = false`, no id. -/
def stC7 : St :=
  mkSt ⟨none, some "web-1", some "s-1vcpu-1gb", some "ubuntu-22-04", some "nyc1", false⟩
    false true false 120

/-- Scenario for the amended claim C7: `unique_name = true`, the droplet
created by the first invocation is found by name on page 1 with the
desired size. -/
def envC7b : Nat → Response := fun _ =>
  ⟨200, .jobj [("droplets", .jarr [dropletDoc 3 "web-1" "s-1vcpu-1gb" "new"]),
               ("links", .jobj [("pages", .jobj [])])]⟩

/-- Desired state of the amended claim C7: `unique_name = true`, no id. -/
def stC7b : St :=
  mkSt ⟨none, some "web-1", some "s-1vcpu-1gb", some "ubuntu-22-04", some "nyc1", false⟩
    false true true 120

/-- Pages for the C8 witness: the searched name appears (twice) on the
last of three pages. -/
def pagesC8 : List (List JVal) :=
  [[dropletDoc 1 "a" "s-1" "active"], [dropletDoc 2 "b" "s-1" "active"],
   [dropletDoc 3 "web-1" "s-1" "active", dropletDoc 4 "web-1" "s-1" "active"]]

/-- Concrete scenario for claim C9: the first fetch of page 1 answers 500,
the retry of page 1 answers 200 with no droplets and no next link. -/
def envC9 : Nat → Response := fun k =>
  match k with
  | 0 => ⟨500, .jobj [("id", .jstr "server_error")]⟩
  | _ => ⟨200, .jobj [("droplets", .jarr []), ("links", .jobj [("pages", .jobj [])])]⟩

/-- Concrete scenario for claim C10: the power-on action is accepted, then
the first poll answers 500 with a body that has no `droplet` key. -/
def envC10 : Nat → Response := fun k =>
  match k with
  | 0 => ⟨201, .jobj []⟩
  | _ => ⟨500, .jobj [("id", .jstr "server_error")]⟩

/-- Concrete scenario for the power-off half of claim C10: the droplet
fetch answers 200 with a body that has no `droplet` key. -/
def envC10b : Nat → Response := fun _ => ⟨200, .jobj [("id", .jstr "server_error")]⟩

/-! Support lemmas about the monad. -/

theorem M_bind_apply (x : M α) (f : α → M β) (s : St) :
    (x >>= f) s = match x s with | .ok a s1 => f a s1 | .done o s1 => .done o s1 := rfl

/-- C3: a located droplet whose size differs from the desired size is only
resized when its cached status is exactly `off`; any other status yields
the fatal must-be-off failure with no request issued (the state, hence the
trace, is unchanged), and status `off` issues exactly the resize action
request, whose acceptance (201) reports changed. -/
theorem c3_resize_only_when_off (env : Nat → Response) (s : St) :
    (optJeqStr s.status "off" = false →
      resize_droplet env s = .done (.failed none mustBeOffMsg) s) ∧
    (optJeqStr s.status "off" = true →
      resize_droplet env s =
        .done
          (if (env s.calls).status_code == 201 then
            .exited true (some (resizedMsg s.name s.id s.size (jOfOptStr s.params.size))) none
          else
            .failed none
              (resizeFailedMsg s.name s.id (env s.calls).status_code
                ((env s.calls).json.get "message")))
          { s with calls := s.calls + 1,
                   trace := s.trace ++ [resizeReq s.id s.params] }) := by
  constructor
  · intro h
    simp [resize_droplet, M_bind_apply, getSt, h, failJson]
  · intro h
    simp only [resize_droplet, M_bind_apply, getSt, h, if_true]
    cases h2 : (env s.calls).status_code == 201 <;>
      simp [M_bind_apply, restPost, httpReq, h2, exitJson, failJson, resizeReq]

/-- Witness for C3 at concrete inputs: status `active` fails without a
request; status `off` issues the resize request and exits changed. -/
theorem c3_resize_only_when_off_witness :
    (optJeqStr ({ stC1 with status := some (.jstr "active") } : St).status "off" = false ∧
      resize_droplet envC1 { stC1 with status := some (.jstr "active") } =
        .done (.failed none mustBeOffMsg) { stC1 with status := some (.jstr "active") }) ∧
    (optJeqStr ({ stC1 with status := some (.jstr "off") } : St).status "off" = true ∧
      resize_droplet envC1 { stC1 with status := some (.jstr "off") } =
        .done
          (if (envC1 0).status_code == 201 then
            .exited true (some (resizedMsg none none none (jOfOptStr stC1.params.size))) none
          else
            .failed none
              (resizeFailedMsg none none (envC1 0).status_code
                ((envC1 0).json.get "message")))
          { stC1 with status := some (.jstr "off"), calls := 1,
                      trace := [resizeReq none stC1.params] }) :=
  ⟨⟨rfl, (c3_resize_only_when_off envC1 _).1 rfl⟩,
   ⟨rfl, (c3_resize_only_when_off envC1 _).2 rfl⟩⟩

/-- C1: with the check-mode flag set, the reconciler still mutates on the
resize path and on the power-assertion path.  First conjunct: droplet 1 is
located with size `s-1` while `s-2` is desired and status `off`; although
`check_mode = true`, the run issues the resize action POST and exits
changed.  Second conjunct: with the desired size but status `off` and
target state `active`, the run issues the power-on action POST.  The
check-mode short circuit of `create` sits after the located-droplet
branch, so it only protects the creation path. -/
theorem c1_check_mode_still_mutates :
    (stC1.check_mode = true ∧
      ∃ s2, create envC1 "present" 4 stC1 =
          .done (.exited true (some (resizedMsg (some (.jstr "web-1")) (some (.jnum 1))
            (some (.jstr "s-1")) (.jstr "s-2"))) none) s2 ∧
        s2.trace = [getDropletReq (.jnum 1), resizeReq (some (.jnum 1)) stC1.params]) ∧
    (∃ s2 d, create envC1b "active" 4 stC1 = .done (.exited true none d) s2 ∧
      s2.trace = [getDropletReq (.jnum 1), powerOnReq (.jnum 1), getDropletReq (.jnum 1)]) :=
  ⟨⟨rfl, _, rfl, rfl⟩, _, _, rfl, rfl⟩

/-- C4: the load-balancer module is a verbatim copy of the droplet
reconciler, so a located resource whose `size_slug` differs from the
desired size class is not rejected with a fatal error: when its status is
`off`, the module issues a (droplet-shaped) resize action POST — an
attempted auto-correction — and exits changed.  No update (PUT) request
exists anywhere in the module. -/
theorem c4_lb_size_mismatch_not_fatal :
    ∃ s2, create envC4 "present" 4 stC4 =
        .done (.exited true (some (resizedMsg (some (.jstr "lb-1")) (some (.jnum 7))
          (some (.jstr "lb-medium")) (.jstr "lb-small"))) none) s2 ∧
      s2.trace = [getDropletReq (.jnum 7), resizeReq (some (.jnum 7)) stC4.params] :=
  ⟨_, rfl, rfl⟩

/-- Counterexample to C2: with `wait_timeout = 5` and a droplet that never
reports `active`, phase (a) of `ensure_power_off` exhausts its deadline
(the clock reaches the phase deadline, first conjunct) and then falls
through silently: the run issues the power-off action POST after the
deadline and even returns successfully, with no timeout failure at all
(second conjunct). -/
theorem c2_phase_a_deadline_falls_through :
    (∃ s1, power_off_wait_active envC2 (.jnum 1) 5 3 stC2 = .ok () s1 ∧ s1.now = 5) ∧
    (∃ jd s2, ensure_power_off envC2 (.jnum 1) 3 stC2 = .ok jd s2 ∧
      s2.trace = [getDropletReq (.jnum 1), powerOffReq (.jnum 1),
                  actionPollReq (.jnum 1) (.jnum 9), getDropletReq (.jnum 1)] ∧
      stC2.wait_timeout = 5) :=
  ⟨⟨_, rfl, rfl⟩, _, _, rfl, rfl, rfl⟩

/-- Counterexample to C5: the power-off action of droplet 1 is accepted
(the POST is second in the trace, answered 201 by `envC5`), and the
subsequent action poll answers 500; the fatal result then carries
`changed = false`, not `changed = true`, although a mutation was already
committed. -/
theorem c5_fatal_after_accepted_action_reports_unchanged :
    ∃ s2, ensure_power_off envC5 (.jnum 1) 3 stC5 =
        .done (.failed (some false) "boom") s2 ∧
      s2.trace = [getDropletReq (.jnum 1), powerOffReq (.jnum 1),
                  actionPollReq (.jnum 1) (.jnum 9)] :=
  ⟨_, rfl, rfl⟩

/-- Counterexample to C7: with `unique_name = false` and no id — the
default configuration — a `present` invocation performs no lookup at all,
so a second invocation with the identical desired state issues the
creation POST again and reports changed, regardless of the droplet the
first invocation already created (the oracle plays no role: the trace
shows the POST is the only request). -/
theorem c7_second_present_run_not_idempotent :
    stC7.unique_name = false ∧
    ∃ s2 d, create envC7 "present" 4 stC7 = .done (.exited true none d) s2 ∧
      s2.trace = [createReq stC7.params] :=
  ⟨rfl, _, _, rfl, rfl⟩

/-- Counterexample to C9: a response sequence that contains a non-200 page
request but on which the loop terminates: the first fetch of page 1
answers 500 (no advance, no exit), the retry answers 200 with no match and
no next link, and the loop returns the not-found result after two fetches
of page 1. -/
theorem c9_transient_non200_still_terminates :
    (envC9 0).status_code = 500 ∧
    ∃ s2, get_by_name_loop envC9 "web-1" 1 2 stC7 = .ok none s2 ∧
      s2.trace = [pageReq 1, pageReq 1] ∧ s2.calls = 2 :=
  ⟨rfl, _, rfl, rfl, rfl⟩

/-- C10: the power-on polling loop indexes `json_data[droplet][status]`
with no status-code check and no presence guard, so a poll body without a
`droplet` key (here: a 500 error body) ends the run in an uncaught
`KeyError`, not in a fatal-error result; the corresponding fetch in the
power-off wait loop is guarded and turns the same body into a fatal
result.  (The power-on hypothesis never mentions the status code of the
polled response: the outcome is the same for every status.) -/
theorem c10_power_on_poll_unguarded (env : Nat → Response) (id : JVal) (s : St)
    (fuel : Nat) (hwt : 0 < s.wait_timeout) :
    ((env (s.calls + 1)).json.get "droplet" = none →
      ensure_power_on env id (fuel + 1) s =
        .done (.exception "KeyError")
          { s with calls := s.calls + 2,
                   trace := s.trace ++ [powerOnReq id, getDropletReq id] }) ∧
    ((env s.calls).status_code < 400 → (env s.calls).json.get "droplet" = none →
      ensure_power_off env id (fuel + 1) s =
        .done (.failed (some false) "Unexpected error, please file a bug (no droplet)")
          { s with calls := s.calls + 1, trace := s.trace ++ [getDropletReq id] }) := by
  constructor
  · intro hnone
    have h1 : s.now < s.now + s.wait_timeout := by omega
    simp [ensure_power_on, power_on_loop, M_bind_apply, restPost, restGet, httpReq, getSt,
      pyIndex, raisePy, h1, hnone, powerOnReq, getDropletReq]
  · intro h400 hnone
    have h1 : s.now < s.now + s.wait_timeout := by omega
    have h2 : ¬((env s.calls).status_code ≥ 400) := by omega
    simp [ensure_power_off, power_off_wait_active, M_bind_apply, restGet, httpReq, getSt,
      h1, h2, hnone, failJson, M.pure, getDropletReq]

/-- Witness for C10 at the concrete scenarios `envC10` / `envC10b`. -/
theorem c10_power_on_poll_unguarded_witness :
    (ensure_power_on envC10 (.jnum 1) 3 stC7 =
      .done (.exception "KeyError")
        { stC7 with calls := 2,
                    trace := [powerOnReq (.jnum 1), getDropletReq (.jnum 1)] }) ∧
    (ensure_power_off envC10b (.jnum 1) 3 stC7 =
      .done (.failed (some false) "Unexpected error, please file a bug (no droplet)")
        { stC7 with calls := 1, trace := [getDropletReq (.jnum 1)] }) :=
  ⟨(c10_power_on_poll_unguarded envC10 (.jnum 1) stC7 2 (by decide)).1 rfl,
   (c10_power_on_poll_unguarded envC10b (.jnum 1) stC7 2 (by decide)).2 (by decide) rfl⟩

/-! The locator (`get_by_id`, `get_by_name`, `get_droplet`) only ever
issues GET requests and only updates the cached attribute fields; this
invariant backs the no-mutating-request conjuncts below. -/

/-- From `s` to `s2` the run appended only GET requests and left the
module parameters, flags and clock unchanged. -/
def LocatorInv (s s2 : St) : Prop :=
  s2.params = s.params ∧ s2.check_mode = s.check_mode ∧ s2.wait = s.wait ∧
  s2.wait_timeout = s.wait_timeout ∧ s2.unique_name = s.unique_name ∧
  s2.now = s.now ∧
  ∃ t, s2.trace = s.trace ++ t ∧ ∀ r ∈ t, r.method = Method.GET

theorem LocatorInv.refl (s : St) : LocatorInv s s :=
  ⟨rfl, rfl, rfl, rfl, rfl, rfl, [], by simp, by simp⟩

theorem LocatorInv.trans {a b c : St} (h1 : LocatorInv a b) (h2 : LocatorInv b c) :
    LocatorInv a c := by
  obtain ⟨p1, c1, w1, t1, u1, n1, l1, hl1, hm1⟩ := h1
  obtain ⟨p2, c2, w2, t2, u2, n2, l2, hl2, hm2⟩ := h2
  refine ⟨by rw [p2, p1], by rw [c2, c1], by rw [w2, w1], by rw [t2, t1],
    by rw [u2, u1], by rw [n2, n1], l1 ++ l2, ?_, ?_⟩
  · rw [hl2, hl1, List.append_assoc]
  · intro r hr
    rcases List.mem_append.mp hr with h | h
    · exact hm1 r h
    · exact hm2 r h

/-- A computation all of whose steps respect `LocatorInv`. -/
def LocOnly (x : M α) : Prop := ∀ s, LocatorInv s ((x s).state)

theorem locOnly_bind {x : M α} {f : α → M β} (hx : LocOnly x) (hf : ∀ a, LocOnly (f a)) :
    LocOnly (x >>= f) := by
  intro s
  have h1 := hx s
  rcases h : x s with ⟨a, s1⟩ | ⟨o, s1⟩
  · rw [h] at h1
    have h2 := hf a s1
    have : (x >>= f) s = f a s1 := by simp [Bind.bind, M.bind, h]
    rw [this]
    exact LocatorInv.trans h1 h2
  · rw [h] at h1
    have : (x >>= f) s = .done o s1 := by simp [Bind.bind, M.bind, h]
    rw [this]
    exact h1

theorem locOnly_pure (a : α) : LocOnly (M.pure a) := fun s => LocatorInv.refl s

theorem locOnly_pure2 (a : α) : LocOnly (Pure.pure a) := fun s => LocatorInv.refl s

theorem locOnly_getSt : LocOnly getSt := fun s => LocatorInv.refl s

theorem locOnly_fail (c : Option Bool) (m : String) : LocOnly (failJson c m : M α) :=
  fun s => LocatorInv.refl s

theorem locOnly_exit (c : Bool) (m : Option String) (d : Option JVal) :
    LocOnly (exitJson c m d : M α) := fun s => LocatorInv.refl s

theorem locOnly_raise (e : String) : LocOnly (raisePy e : M α) := fun s => LocatorInv.refl s

theorem locOnly_outOfFuel : LocOnly (outOfFuel : M α) := fun s => LocatorInv.refl s

theorem locOnly_pyIndex (v : JVal) (k : String) : LocOnly (pyIndex v k) := by
  unfold pyIndex
  rcases v.get k with _ | x
  · exact locOnly_raise _
  · exact locOnly_pure _

theorem locOnly_restGet (env : Nat → Response) (p : UrlPath) : LocOnly (restGet env p) := by
  intro s
  refine ⟨rfl, rfl, rfl, rfl, rfl, rfl, [⟨.GET, p, .empty⟩], rfl, ?_⟩
  intro r hr
  simp at hr
  rw [hr]

theorem locOnly_cacheAttrs (droplet : JVal) :
    LocOnly (modifySt (fun s =>
      { s with id := droplet.get "id", name := droplet.get "name",
               size := droplet.get "size_slug", status := droplet.get "status" })) := by
  intro s
  exact ⟨rfl, rfl, rfl, rfl, rfl, rfl, [], by simp [modifySt, StepR.state], by simp⟩

theorem locOnly_ite (c : Prop) [Decidable c] {x y : M α} (hx : LocOnly x) (hy : LocOnly y) :
    LocOnly (if c then x else y) := by
  by_cases h : c <;> simp [h] <;> assumption

theorem locOnly_get_by_id (env : Nat → Response) (v : JVal) : LocOnly (get_by_id env v) := by
  unfold get_by_id
  refine locOnly_ite _ (locOnly_pure _) ?_
  refine locOnly_bind (locOnly_restGet env _) ?_
  intro response
  refine locOnly_ite _ ?_ (locOnly_pure _)
  refine locOnly_bind ?_ (fun _ => locOnly_pure _)
  rcases response.json.get "droplet" with _ | droplet
  · exact locOnly_pure _
  · exact locOnly_cacheAttrs droplet

theorem locOnly_get_by_name_loop (env : Nat → Response) (nm : String) :
    ∀ (fuel page : Nat), LocOnly (get_by_name_loop env nm page fuel) := by
  intro fuel
  induction fuel with
  | zero => intro page; exact locOnly_outOfFuel
  | succ n ih =>
    intro page
    unfold get_by_name_loop
    refine locOnly_bind (locOnly_restGet env _) ?_
    intro response
    refine locOnly_ite _ ?_ (ih page)
    refine locOnly_bind (locOnly_pyIndex _ _) ?_
    intro droplets
    refine locOnly_bind ?_ ?_
    · unfold pyIterList
      rcases droplets with _ | _ | _ | _ | xs | _
      all_goals first
        | exact locOnly_raise _
        | exact locOnly_pure _
    · intro ds
      rcases findByName nm ds with e | r
      · exact locOnly_raise _
      · rcases r with _ | droplet
        · exact locOnly_ite _ (ih (page + 1)) (locOnly_pure _)
        · exact locOnly_bind (locOnly_cacheAttrs droplet) (fun _ => locOnly_pure _)

theorem locOnly_get_by_name (env : Nat → Response) (nm : Option String) (fuel : Nat) :
    LocOnly (get_by_name env nm fuel) := by
  unfold get_by_name
  refine locOnly_ite _ (locOnly_pure _) ?_
  rcases nm with _ | n
  · exact locOnly_pure _
  · exact locOnly_get_by_name_loop env n fuel 1

theorem locOnly_get_droplet (env : Nat → Response) (fuel : Nat) :
    LocOnly (get_droplet env fuel) := by
  unfold get_droplet
  refine locOnly_bind locOnly_getSt ?_
  intro s
  refine locOnly_bind (locOnly_get_by_id env _) ?_
  intro json_data
  exact locOnly_ite _ (locOnly_get_by_name env _ fuel) (locOnly_pure _)

/-- C6: in a reconciliation with target state absent, when the locator
finds nothing (neither by id nor — under unique-name enforcement — by
name), `delete` exits successfully with `changed = false` and the message
that the droplet was not found, and the whole run has appended only GET
requests to the trace: in particular no DELETE request was issued. -/
theorem c6_delete_absent_is_noop_success (env : Nat → Response) (fuel : Nat) (s s1 : St)
    (hloc : get_droplet env fuel s = .ok none s1) :
    delete env fuel s = .done (.exited false (some "Droplet not found") none) s1 ∧
    ∃ t, s1.trace = s.trace ++ t ∧ ∀ r ∈ t, r.method = Method.GET := by
  constructor
  · simp [delete, M_bind_apply, hloc, truthyOpt, exitJson]
  · have h := locOnly_get_droplet env fuel s
    rw [hloc] at h
    exact h.2.2.2.2.2.2

/-- Witness for C6: id lookup answers 404 and the name search exhausts a
single page without a match; the run exits unchanged having issued two GET
requests and no DELETE. -/
theorem c6_delete_absent_is_noop_success_witness :
    delete envC6 4 stC6 = .done (.exited false (some "Droplet not found") none)
      { stC6 with calls := 2, trace := [getDropletReq (.jnum 42), pageReq 1] } ∧
    ∃ t, ({ stC6 with calls := 2,
                      trace := [getDropletReq (.jnum 42), pageReq 1] } : St).trace =
        stC6.trace ++ t ∧ ∀ r ∈ t, r.method = Method.GET :=
  c6_delete_absent_is_noop_success envC6 4 stC6
    { stC6 with calls := 2, trace := [getDropletReq (.jnum 42), pageReq 1] } rfl

/-- Amended C7: the second `present` invocation is idempotent only when the
locator can find the droplet the first invocation created — that is, when
an id or unique-name enforcement makes the lookup happen.  Under the
hypotheses that the locator returns a document whose droplet carries the
desired size together with an id and a status, and whose address scan
succeeds, the second run exits with `changed = false` and appends only GET
requests (no mutating request).  Without id and unique-name enforcement
(see the counterexample) no lookup happens at all and the second run
creates again. -/
theorem c7_amended_second_present_run_unchanged (env : Nat → Response) (fuel : Nat)
    (s s1 : St) (jd droplet dd ds : JVal)
    (hloc : get_droplet env fuel s = .ok (some jd) s1)
    (hd : jd.get "droplet" = some droplet)
    (hds : droplet.get "size_slug" = some ds)
    (hsz : pyEqPrim ds (jOfOptStr s.params.size) = true)
    (haddr : get_addresses jd s1 = .ok dd s1)
    (hid : (droplet.get "id").isSome = true)
    (hst : (droplet.get "status").isSome = true) :
    create env "present" fuel s = .done (.exited false none (some dd)) s1 ∧
    ∃ t, s1.trace = s.trace ++ t ∧ ∀ r ∈ t, r.method = Method.GET := by
  have hinv := locOnly_get_droplet env fuel s
  rw [hloc] at hinv
  simp only [StepR.state] at hinv
  have hparams : s1.params = s.params := hinv.1
  constructor
  · obtain ⟨di, hdi⟩ := Option.isSome_iff_exists.mp hid
    obtain ⟨dst, hdst⟩ := Option.isSome_iff_exists.mp hst
    simp [create, M_bind_apply, hloc, getSt, hd, hds, hparams, hsz, haddr, hdi, hdst,
      exitJson, M.pure]
  · exact hinv.2.2.2.2.2.2

/-- Witness for the amended C7: with `unique_name = true` the droplet
created by the first invocation is found by name; the second run reports
no change and issues only the one GET page fetch. -/
theorem c7_amended_second_present_run_unchanged_witness :
    create envC7b "present" 4 stC7b =
      .done (.exited false none (some (.jobj [("droplet", dropletDoc 3 "web-1" "s-1vcpu-1gb" "new")])))
        { stC7b with id := some (.jnum 3), name := some (.jstr "web-1"),
                     size := some (.jstr "s-1vcpu-1gb"), status := some (.jstr "new"),
                     calls := 1, trace := [pageReq 1] } ∧
    ∃ t, ({ stC7b with id := some (.jnum 3), name := some (.jstr "web-1"),
                       size := some (.jstr "s-1vcpu-1gb"), status := some (.jstr "new"),
                       calls := 1, trace := [pageReq 1] } : St).trace =
        stC7b.trace ++ t ∧ ∀ r ∈ t, r.method = Method.GET :=
  c7_amended_second_present_run_unchanged envC7b 4 stC7b
    { stC7b with id := some (.jnum 3), name := some (.jstr "web-1"),
                 size := some (.jstr "s-1vcpu-1gb"), status := some (.jstr "new"),
                 calls := 1, trace := [pageReq 1] }
    (.jobj [("droplet", dropletDoc 3 "web-1" "s-1vcpu-1gb" "new")])
    (dropletDoc 3 "web-1" "s-1vcpu-1gb" "new")
    (.jobj [("droplet", dropletDoc 3 "web-1" "s-1vcpu-1gb" "new")])
    (.jstr "s-1vcpu-1gb") rfl rfl rfl rfl rfl rfl rfl

/-! Pagination machinery for the by-name search. -/

theorem searchPages_cons_none {nm : String} {pg : List JVal} (rest : List (List JVal))
    (h : findByName nm pg = .ok none) :
    searchPages nm (pg :: rest) = searchPages nm rest := by
  simp only [searchPages]
  rw [h]

theorem searchPages_cons_some {nm : String} {pg : List JVal} {d : JVal}
    (rest : List (List JVal)) (h : findByName nm pg = .ok (some d)) :
    searchPages nm (pg :: rest) = some d := by
  simp only [searchPages]
  rw [h]

theorem searchCount_cons_none {nm : String} {pg : List JVal} (rest : List (List JVal))
    (h : findByName nm pg = .ok none) :
    searchCount nm (pg :: rest) = 1 + searchCount nm rest := by
  simp only [searchCount]
  rw [h]

theorem searchCount_cons_some {nm : String} {pg : List JVal} {d : JVal}
    (rest : List (List JVal)) (h : findByName nm pg = .ok (some d)) :
    searchCount nm (pg :: rest) = 1 := by
  simp only [searchCount]
  rw [h]

theorem searchPages_no_match (nm : String) :
    ∀ pages : List (List JVal), (∀ pg ∈ pages, findByName nm pg = .ok none) →
      searchPages nm pages = none ∧ searchCount nm pages = pages.length := by
  intro pages
  induction pages with
  | nil => intro _; exact ⟨rfl, rfl⟩
  | cons pg rest ih =>
    intro h
    have hpg := h pg (by simp)
    have hrest := ih (fun q hq => h q (by simp [hq]))
    refine ⟨?_, ?_⟩
    · rw [searchPages_cons_none rest hpg, hrest.1]
    · rw [searchCount_cons_none rest hpg, hrest.2, List.length_cons]
      omega

theorem searchPages_match_last (nm : String) (lastPg : List JVal) (d : JVal)
    (hlast : findByName nm lastPg = .ok (some d)) :
    ∀ init : List (List JVal), (∀ pg ∈ init, findByName nm pg = .ok none) →
      searchPages nm (init ++ [lastPg]) = some d ∧
      searchCount nm (init ++ [lastPg]) = init.length + 1 := by
  intro init
  induction init with
  | nil =>
    intro _
    exact ⟨searchPages_cons_some [] hlast, searchCount_cons_some [] hlast⟩
  | cons pg rest ih =>
    intro h
    have hpg := h pg (by simp)
    have hrest := ih (fun q hq => h q (by simp [hq]))
    refine ⟨?_, ?_⟩
    · rw [List.cons_append, searchPages_cons_none _ hpg, hrest.1]
    · rw [List.cons_append, searchCount_cons_none _ hpg, hrest.2, List.length_cons]
      omega

/-- One sweep of the fueled search loop against a well-formed paginated
server: starting at page `k + 1` with `k` calls already made, the loop
fetches exactly `searchCount` further pages from the remaining suffix and
returns the wrapped first match (or `none` when the suffix holds none). -/
theorem get_by_name_loop_pages_spec (pages : List (List JVal)) (nm : String) :
    ∀ (rest : List (List JVal)) (k : Nat) (s : St) (fuel : Nat),
      pages.drop k = rest → k < pages.length → s.calls = k → rest.length ≤ fuel →
      (∀ pg ∈ rest, ∃ r, findByName nm pg = .ok r) →
      ∃ s2, get_by_name_loop (envOfPages pages) nm (k + 1) fuel s =
          .ok ((searchPages nm rest).map (fun d => .jobj [("droplet", d)])) s2 ∧
        s2.calls = k + searchCount nm rest := by
  intro rest
  induction rest with
  | nil =>
    intro k s fuel hdrop hk _ _ _
    rw [List.drop_eq_nil_iff] at hdrop
    omega
  | cons pg rest ih =>
    intro k s fuel hdrop hk hcalls hfuel hwf
    have hget : pages[k]? = some pg := by
      have h0 : (pages.drop k)[0]? = some pg := by rw [hdrop]; simp
      rwa [List.getElem?_drop, Nat.add_zero] at h0
    cases fuel with
    | zero => simp at hfuel
    | succ n =>
      obtain ⟨r, hfind⟩ := hwf pg (by simp)
      have henv : envOfPages pages s.calls =
          ⟨200, .jobj [("droplets", .jarr pg),
                       ("links", pageLinksJ (decide (k + 1 < pages.length)))]⟩ := by
        rw [hcalls]; simp [envOfPages, hget]
      cases r with
      | some d =>
        rw [searchPages_cons_some rest hfind, searchCount_cons_some rest hfind]
        refine ⟨{ s with id := d.get "id", name := d.get "name", size := d.get "size_slug",
                         status := d.get "status", calls := s.calls + 1,
                         trace := s.trace ++ [pageReq (k + 1)] }, ?_, ?_⟩
        · simp [get_by_name_loop, M_bind_apply, restGet, httpReq, henv, pyIndex,
            JVal.get, lookupStr, pyIterList, hfind, modifySt, M.pure, getSt, pageReq]
        · simp [hcalls]
      | none =>
        rw [searchPages_cons_none rest hfind, searchCount_cons_none rest hfind]
        cases rest with
        | nil =>
          have hlen : pages.length = k + 1 := by
            have := congrArg List.length hdrop
            simp [List.length_drop] at this
            omega
          have hb : decide (k + 1 < pages.length) = false := by
            simp
            omega
          refine ⟨{ s with calls := s.calls + 1, trace := s.trace ++ [pageReq (k + 1)] },
            ?_, ?_⟩
          · simp [get_by_name_loop, M_bind_apply, restGet, httpReq, henv, pyIndex,
              JVal.get, lookupStr, pyIterList, hfind, hb, hasNextLink, pageLinksJ,
              JVal.hasKey, M.pure, searchPages, pageReq]
          · simp [searchCount, hcalls]
        | cons pg2 rest2 =>
          have hlen : pages.length = k + rest2.length + 2 := by
            have := congrArg List.length hdrop
            simp [List.length_drop, List.length_cons] at this
            omega
          have hb : decide (k + 1 < pages.length) = true := by
            simp
            omega
          have hdrop2 : pages.drop (k + 1) = pg2 :: rest2 := by
            have h1 : (pages.drop k).drop 1 = pages.drop (k + 1) := by
              rw [List.drop_drop]
            rw [← h1, hdrop]
            rfl
          obtain ⟨s2, hrec, hc2⟩ := ih (k + 1)
            { s with calls := s.calls + 1, trace := s.trace ++ [pageReq (k + 1)] } n
            hdrop2 (by omega) (by simp [hcalls])
            (by simp only [List.length_cons] at hfuel ⊢; omega)
            (fun q hq => hwf q (by simp [hq]))
          refine ⟨s2, ?_, ?_⟩
          · simpa [get_by_name_loop, M_bind_apply, restGet, httpReq, henv, pyIndex,
              JVal.get, lookupStr, pyIterList, hfind, hb, hasNextLink, pageLinksJ,
              JVal.hasKey, M.pure, pageReq] using hrec
          · rw [hc2]
            omega

/-- C8: a name search against a well-formed paginated listing of N pages
fetches exactly N pages and terminates, both when the first match sits on
the last page (returning that first matching droplet wrapped as a
droplet document) and when no page matches (returning the not-found
result `none` once a response carries no next link). -/
theorem c8_pagination_exact_fetches (pages init : List (List JVal)) (lastPg : List JVal)
    (nm : String) (d : JVal) (fuel : Nat) (s : St)
    (hc : s.calls = 0) (hf : pages.length ≤ fuel) (hnm : nm ≠ "") :
    (pages = init ++ [lastPg] →
      (∀ pg ∈ init, findByName nm pg = .ok none) →
      findByName nm lastPg = .ok (some d) →
      ∃ s2, get_by_name (envOfPages pages) (some nm) fuel s =
          .ok (some (.jobj [("droplet", d)])) s2 ∧ s2.calls = pages.length) ∧
    (pages ≠ [] →
      (∀ pg ∈ pages, findByName nm pg = .ok none) →
      ∃ s2, get_by_name (envOfPages pages) (some nm) fuel s = .ok none s2 ∧
        s2.calls = pages.length) := by
  have hb : (nm != "") = true := bne_iff_ne.mpr hnm
  have hgn : ∀ (e : Nat → Response),
      get_by_name e (some nm) fuel = get_by_name_loop e nm 1 fuel := by
    intro e
    simp [get_by_name, jOfOptStr, JVal.truthy, hb]
  constructor
  · intro hsplit hinit hlast
    have hwf : ∀ pg ∈ pages, ∃ r, findByName nm pg = .ok r := by
      intro pg hpg
      rw [hsplit] at hpg
      rcases List.mem_append.mp hpg with h | h
      · exact ⟨none, hinit pg h⟩
      · rw [List.mem_singleton.mp h]
        exact ⟨some d, hlast⟩
    have hpos : 0 < pages.length := by
      rw [hsplit]
      simp
    obtain ⟨s2, hrun, hcnt⟩ := get_by_name_loop_pages_spec pages nm pages
      0 s fuel (by simp) hpos hc (by omega) hwf
    have hsp := searchPages_match_last nm lastPg d hlast init hinit
    rw [hsplit] at hrun hcnt ⊢
    rw [hsp.1] at hrun
    rw [hsp.2] at hcnt
    refine ⟨s2, ?_, ?_⟩
    · rw [hgn]
      simpa using hrun
    · simp [hcnt]
  · intro hne hall
    have hwf : ∀ pg ∈ pages, ∃ r, findByName nm pg = .ok r :=
      fun pg hpg => ⟨none, hall pg hpg⟩
    have hpos : 0 < pages.length := List.length_pos.mpr hne
    obtain ⟨s2, hrun, hcnt⟩ := get_by_name_loop_pages_spec pages nm pages
      0 s fuel (by simp) hpos hc (by omega) hwf
    have hsp := searchPages_no_match nm pages hall
    rw [hsp.1] at hrun
    rw [hsp.2] at hcnt
    refine ⟨s2, ?_, ?_⟩
    · rw [hgn]
      simpa using hrun
    · simpa using hcnt

/-- Witness for C8 on a three-page listing: the match on the last page is
found after exactly three fetches; a search for an absent name also
fetches exactly three pages and returns the not-found result. -/
theorem c8_pagination_exact_fetches_witness :
    (∃ s2, get_by_name (envOfPages pagesC8) (some "web-1") 3 stC7 =
        .ok (some (.jobj [("droplet", dropletDoc 3 "web-1" "s-1" "active")])) s2 ∧
      s2.calls = pagesC8.length) ∧
    (∃ s2, get_by_name (envOfPages pagesC8) (some "nomatch") 3 stC7 =
        .ok none s2 ∧ s2.calls = pagesC8.length) :=
  ⟨(c8_pagination_exact_fetches pagesC8
      [[dropletDoc 1 "a" "s-1" "active"], [dropletDoc 2 "b" "s-1" "active"]]
      [dropletDoc 3 "web-1" "s-1" "active", dropletDoc 4 "web-1" "s-1" "active"]
      "web-1" (dropletDoc 3 "web-1" "s-1" "active") 3 stC7 rfl (by decide) (by decide)).1
      rfl
      (by
        intro pg hpg
        simp only [List.mem_cons, List.not_mem_nil, or_false] at hpg
        rcases hpg with rfl | rfl <;> rfl)
      rfl,
   (c8_pagination_exact_fetches pagesC8 [] [] "nomatch" .jnull 3 stC7 rfl
      (by decide) (by decide)).2
      (by simp [pagesC8])
      (by
        intro pg hpg
        simp only [pagesC8, List.mem_cons, List.not_mem_nil, or_false] at hpg
        rcases hpg with rfl | rfl | rfl <;> rfl)⟩

/-- On any persistently non-200 suffix of responses the search loop
neither advances the page number nor exits: every unit of fuel is spent
refetching the same page, and the run ends only by fuel exhaustion. -/
theorem get_by_name_loop_stuck (env : Nat → Response) (nm : String) (page : Nat) :
    ∀ (fuel : Nat) (s : St), (∀ i, s.calls ≤ i → (env i).status_code ≠ 200) →
      get_by_name_loop env nm page fuel s = .done .fuelOut
        { s with calls := s.calls + fuel,
                 trace := s.trace ++ List.replicate fuel (pageReq page) } := by
  intro fuel
  induction fuel with
  | zero =>
    intro s h
    simp [get_by_name_loop, outOfFuel]
  | succ n ih =>
    intro s h
    have h200 : ((env s.calls).status_code == 200) = false := by
      simp only [beq_eq_false_iff_ne, ne_eq]
      exact h s.calls (le_refl _)
    have hrec := ih { s with calls := s.calls + 1, trace := s.trace ++ [pageReq page] }
      (fun i hi => h i (by simp at hi; omega))
    simp only [get_by_name_loop, M_bind_apply, restGet, httpReq, h200,
      Bool.false_eq_true, if_false, pageReq] at hrec ⊢
    rw [hrec]
    simp [List.replicate_succ, pageReq]
    omega

/-- Amended C9: (i) the by-name search loop terminates (with a proper
result, not fuel exhaustion) for every response sequence served by a
finite well-formed paginated listing in which each page request returns
200 and the last page carries no next link; (ii) on a non-200 response
the loop neither advances the page number nor exits that iteration, so as
soon as every remaining response is non-200 the loop refetches the same
page once per unit of fuel and never terminates (it ends only by fuel
exhaustion, for every fuel), instead of returning not-found or a fatal
error. -/
theorem c9_amended_non200_loops_forever :
    (∀ (pages : List (List JVal)) (nm : String) (fuel : Nat) (s : St),
      pages ≠ [] → s.calls = 0 → pages.length ≤ fuel →
      (∀ pg ∈ pages, ∃ r, findByName nm pg = .ok r) →
      ∃ res s2, get_by_name_loop (envOfPages pages) nm 1 fuel s = .ok res s2) ∧
    (∀ (env : Nat → Response) (nm : String) (page : Nat) (fuel : Nat) (s : St),
      (∀ i, s.calls ≤ i → (env i).status_code ≠ 200) →
      get_by_name_loop env nm page fuel s = .done .fuelOut
        { s with calls := s.calls + fuel,
                 trace := s.trace ++ List.replicate fuel (pageReq page) }) := by
  constructor
  · intro pages nm fuel s hne hc hf hwf
    have hpos : 0 < pages.length := List.length_pos.mpr hne
    obtain ⟨s2, hrun, _⟩ := get_by_name_loop_pages_spec pages nm pages
      0 s fuel (by simp) hpos hc (by omega) hwf
    exact ⟨_, s2, hrun⟩
  · intro env nm page fuel s h
    exact get_by_name_loop_stuck env nm page fuel s h

/-- Witness for the amended C9: the three-page listing is searched to
completion, while a server answering 500 forever keeps the loop pinned to
page 1 for all four units of fuel. -/
theorem c9_amended_non200_loops_forever_witness :
    (∃ res s2, get_by_name_loop (envOfPages pagesC8) "web-1" 1 3 stC7 = .ok res s2) ∧
    get_by_name_loop (fun _ => ⟨500, .jobj []⟩) "web-1" 1 4 stC7 = .done .fuelOut
      { stC7 with calls := stC7.calls + 4,
                  trace := stC7.trace ++ List.replicate 4 (pageReq 1) } :=
  ⟨c9_amended_non200_loops_forever.1 pagesC8 "web-1" 3 stC7 (by simp [pagesC8]) rfl
      (by decide)
      (by
        intro pg hpg
        simp only [pagesC8, List.mem_cons, List.not_mem_nil, or_false] at hpg
        rcases hpg with rfl | rfl | rfl
        · exact ⟨none, rfl⟩
        · exact ⟨none, rfl⟩
        · exact ⟨some (dropletDoc 3 "web-1" "s-1" "active"), rfl⟩),
   c9_amended_non200_loops_forever.2 (fun _ => ⟨500, .jobj []⟩) "web-1" 1 4 stC7
      (fun i _ => by show (500 : Nat) ≠ 200; decide)⟩

/-- Deadline expiry in the action-polling phase of the power-off sequence
is fatal: as long as every poll answers 2xx/3xx with an uncompleted
action, the loop keeps sleeping and, once the clock reaches the deadline,
fails with the powering-off timeout message (given enough fuel, since each
sleep advances the clock by at least one second). -/
theorem power_off_poll_action_times_out (env : Nat → Response) (did aid : JVal)
    (end2 : Int) :
    ∀ (fuel : Nat) (s : St),
      (∀ i, s.calls ≤ i → (env i).status_code < 400 ∧
        ∃ a v, (env i).json.get "action" = some a ∧ a.get "status" = some v ∧
          jeqStr v "completed" = false) →
      (end2 - s.now).toNat < fuel →
      ∃ s2, power_off_poll_action env did aid end2 fuel s =
        .done (.failed none "Wait for droplet powering off timeout") s2 := by
  intro fuel
  induction fuel with
  | zero => intro s _ hf; omega
  | succ n ih =>
    intro s h hf
    by_cases hlt : s.now < end2
    · obtain ⟨h400, a, v, ha, hv, hvc⟩ := h s.calls (le_refl _)
      have h400n : ¬((env s.calls).status_code ≥ 400) := by omega
      obtain ⟨s2, hrec⟩ := ih
        { s with calls := s.calls + 1, trace := s.trace ++ [actionPollReq did aid],
                 now := s.now + min 10 (end2 - s.now) }
        (fun i hi => h i (by simp at hi; omega))
        (by simp; omega)
      refine ⟨s2, ?_⟩
      simp only [power_off_poll_action, M_bind_apply, getSt, restGet, httpReq,
        hlt, if_true, actionPollReq] at hrec ⊢
      simp only [h400n, if_false, M.pure, ha, hv, Option.isNone_some, Bool.or_self,
        optJeqStr, hvc, sleepM, modifySt] at hrec ⊢
      simpa using hrec
    · refine ⟨s, ?_⟩
      simp [power_off_poll_action, M_bind_apply, getSt, hlt, failJson]

/-- Amended C2: deadline expiry is fatal only in the action-polling phase
(c) of the power-off sequence, with the powering-off timeout message;
phase (b) is a single un-deadlined request, and in the wait-for-active
phase (a) a clock at or past the deadline makes the loop fall through
silently (it returns successfully without touching the state), so control
proceeds to issue the power-off action instead of failing. -/
theorem c2_amended_timeout_fatal_only_in_poll_phase :
    (∀ (env : Nat → Response) (did aid : JVal) (end2 : Int) (fuel : Nat) (s : St),
      (∀ i, s.calls ≤ i → (env i).status_code < 400 ∧
        ∃ a v, (env i).json.get "action" = some a ∧ a.get "status" = some v ∧
          jeqStr v "completed" = false) →
      (end2 - s.now).toNat < fuel →
      ∃ s2, power_off_poll_action env did aid end2 fuel s =
        .done (.failed none "Wait for droplet powering off timeout") s2) ∧
    (∀ (env : Nat → Response) (did : JVal) (end1 : Int) (fuel : Nat) (s : St),
      end1 ≤ s.now →
      power_off_wait_active env did end1 fuel s = .ok () s) := by
  constructor
  · intro env did aid end2 fuel s h hf
    exact power_off_poll_action_times_out env did aid end2 fuel s h hf
  · intro env did end1 fuel s hle
    have hn : ¬(s.now < end1) := by omega
    cases fuel with
    | zero => simp [power_off_wait_active, M_bind_apply, getSt, hn, M.pure]
    | succ n => simp [power_off_wait_active, M_bind_apply, getSt, hn, M.pure]

/-- Witness for the amended C2: a server whose polls always answer 200
with an in-progress action drives the polling phase into the fatal
timeout; a wait-for-active phase entered at its deadline returns without
failing. -/
theorem c2_amended_timeout_fatal_only_in_poll_phase_witness :
    (∃ s2, power_off_poll_action
        (fun _ => ⟨200, .jobj [("action", .jobj [("id", .jnum 9),
                  ("status", .jstr "in-progress")])]⟩)
        (.jnum 1) (.jnum 9) 1 2 stC5 =
      .done (.failed none "Wait for droplet powering off timeout") s2) ∧
    power_off_wait_active envC2 (.jnum 1) 0 3 stC5 = .ok () stC5 :=
  ⟨c2_amended_timeout_fatal_only_in_poll_phase.1
      (fun _ => ⟨200, .jobj [("action", .jobj [("id", .jnum 9),
                ("status", .jstr "in-progress")])]⟩)
      (.jnum 1) (.jnum 9) 1 2 stC5
      (fun i _ => ⟨by show (200 : Nat) < 400; decide,
        ⟨.jobj [("id", .jnum 9), ("status", .jstr "in-progress")], .jstr "in-progress",
          rfl, rfl, rfl⟩⟩)
      (by decide),
   c2_amended_timeout_fatal_only_in_poll_phase.2 envC2 (.jnum 1) 0 3 stC5 (by decide)⟩

/-- Every fatal exit of the wait-for-active phase passes
`changed = False` explicitly. -/
theorem power_off_wait_active_fail_changed (env : Nat → Response) (did : JVal)
    (end1 : Int) :
    ∀ (fuel : Nat) (s : St) {b : Option Bool} {m : String} {s2 : St},
      power_off_wait_active env did end1 fuel s = .done (.failed b m) s2 →
      b = some false := by
  intro fuel
  induction fuel with
  | zero =>
    intro s b m s2 h
    by_cases hlt : s.now < end1 <;>
      simp [power_off_wait_active, M_bind_apply, getSt, hlt, outOfFuel, M.pure] at h
  | succ n ih =>
    intro s b m s2 h
    by_cases hlt : s.now < end1
    · by_cases h4 : (env s.calls).status_code ≥ 400
      · rcases hm : (env s.calls).json.get "message" with _ | msg <;>
          simp [power_off_wait_active, M_bind_apply, getSt, restGet, httpReq, hlt, h4,
            pyIndex, hm, raisePy, failJson, M.pure] at h
        exact h.1.1.symm
      · rcases hd : (env s.calls).json.get "droplet" with _ | droplet
        · simp [power_off_wait_active, M_bind_apply, getSt, restGet, httpReq, hlt, h4,
            hd, failJson, M.pure] at h
          exact h.1.1.symm
        · rcases hs : droplet.get "status" with _ | st
          · simp [power_off_wait_active, M_bind_apply, getSt, restGet, httpReq, hlt, h4,
              hd, hs, failJson, M.pure] at h
            exact h.1.1.symm
          · by_cases hact : jeqStr st "active" = true <;>
              simp [power_off_wait_active, M_bind_apply, getSt, restGet, httpReq, hlt,
                h4, hd, hs, hact, failJson, M.pure, sleepM, modifySt] at h
            exact ih _ h
    · simp [power_off_wait_active, M_bind_apply, getSt, hlt, M.pure] at h

/-- Every fatal exit of the action-polling phase passes either
`changed = False` or no `changed` keyword at all (the timeout). -/
theorem power_off_poll_action_fail_changed (env : Nat → Response) (did aid : JVal)
    (end2 : Int) :
    ∀ (fuel : Nat) (s : St) {b : Option Bool} {m : String} {s2 : St},
      power_off_poll_action env did aid end2 fuel s = .done (.failed b m) s2 →
      b = some false ∨ b = none := by
  intro fuel
  induction fuel with
  | zero =>
    intro s b m s2 h
    by_cases hlt : s.now < end2 <;>
      simp [power_off_poll_action, M_bind_apply, getSt, hlt, outOfFuel, failJson] at h
    exact Or.inr h.1.1.symm
  | succ n ih =>
    intro s b m s2 h
    by_cases hlt : s.now < end2
    · by_cases h4 : (env s.calls).status_code ≥ 400
      · rcases hm : (env s.calls).json.get "message" with _ | msg <;>
          simp [power_off_poll_action, M_bind_apply, getSt, restGet, httpReq, hlt, h4,
            pyIndex, hm, raisePy, failJson, M.pure] at h
        exact Or.inl h.1.1.symm
      · rcases ha : (env s.calls).json.get "action" with _ | a
        · simp [power_off_poll_action, M_bind_apply, getSt, restGet, httpReq, hlt, h4,
            ha, raisePy, M.pure] at h
        · rcases hst : a.get "status" with _ | st
          · simp [power_off_poll_action, M_bind_apply, getSt, restGet, httpReq, hlt,
              h4, ha, hst, failJson, M.pure] at h
            exact Or.inl h.1.1.symm
          · by_cases hc : jeqStr st "completed" = true
            · by_cases h42 : (env (s.calls + 1)).status_code ≥ 400
              · rcases hm2 : (env (s.calls + 1)).json.get "message" with _ | msg2 <;>
                  simp [power_off_poll_action, M_bind_apply, getSt, restGet, httpReq,
                    hlt, h4, ha, hst, hc, optJeqStr, h42, pyIndex, hm2, raisePy,
                    failJson, M.pure] at h
                exact Or.inl h.1.1.symm
              · simp [power_off_poll_action, M_bind_apply, getSt, restGet, httpReq,
                  hlt, h4, ha, hst, hc, optJeqStr, h42, M.pure] at h
            · simp [power_off_poll_action, M_bind_apply, getSt, restGet, httpReq, hlt,
                h4, ha, hst, hc, optJeqStr, failJson, M.pure, sleepM, modifySt] at h
              exact ih _ h
    · simp [power_off_poll_action, M_bind_apply, getSt, hlt, failJson] at h
      exact Or.inr h.1.1.symm

/-- Amended C5: the fatal exits of the power-off sequence never report
`changed = true` — every `fail_json` there passes `changed = False`
explicitly or omits the keyword (the timeout) — even when the power-off
action request was already accepted by the provider earlier in the same
run.  The `changed` flag of a fatal result therefore does not reflect a
mutation already committed (see the counterexample for a concrete
accepted-then-failed run). -/
theorem c5_amended_fatal_exits_never_report_changed (env : Nat → Response) (did : JVal)
    (fuel : Nat) (s : St) (b : Option Bool) (m : String) (s2 : St)
    (h : ensure_power_off env did fuel s = .done (.failed b m) s2) :
    b = some false ∨ b = none := by
  simp only [ensure_power_off, M_bind_apply, getSt] at h
  rcases hw : power_off_wait_active env did (s.now + s.wait_timeout) fuel s
    with ⟨u, s1⟩ | ⟨o, s1⟩
  · rw [hw] at h
    simp only [M_bind_apply, restPost, httpReq] at h
    by_cases h4 : (env s1.calls).status_code ≥ 400
    · rcases hm : (env s1.calls).json.get "message" with _ | msg <;>
        simp [M_bind_apply, h4, pyIndex, hm, raisePy, failJson, M.pure] at h
      exact Or.inl h.1.1.symm
    · rcases ha : (env s1.calls).json.get "action" with _ | a
      · simp [M_bind_apply, h4, ha, raisePy, M.pure] at h
      · rcases hid : a.get "id" with _ | idv
        · simp [M_bind_apply, h4, ha, hid, failJson, M.pure] at h
          exact Or.inl h.1.1.symm
        · simp only [M_bind_apply, h4, ha, hid, M.pure, getSt, if_false,
            Option.isNone_some, Bool.or_self, Option.isNone_none] at h
          exact power_off_poll_action_fail_changed env did (jOfOpt (some idv)) _ _ _ h
  · rw [hw] at h
    have h2 : (StepR.done o s1 : StepR JVal) = .done (.failed b m) s2 := h
    simp only [StepR.done.injEq] at h2
    rw [h2.1] at hw
    exact Or.inl (power_off_wait_active_fail_changed env did _ fuel s hw)

/-- Witness for the amended C5, at the counterexample scenario: the fatal
result after the accepted power-off action carries `changed = some false`. -/
theorem c5_amended_fatal_exits_never_report_changed_witness :
    (some false : Option Bool) = some false ∨ (some false : Option Bool) = none :=
  c5_amended_fatal_exits_never_report_changed envC5 (.jnum 1) 3 stC5 (some false) "boom"
    ((ensure_power_off envC5 (.jnum 1) 3 stC5).state) rfl
